import Mathlib

/-!
Shallow embedding of the libfranka network transport layer
(`franka::Network` in network.h, `franka::connect`, and
`franka::LibraryDownloader` in library_downloader.cpp).

Modelling conventions:
* Wire data is a `List Nat` of field-sized cells: a frame header occupies
  two cells (command kind, command identifier), mirroring the fixed-size
  `T::Header` struct; a payload of `sizeof(T::Response)` bytes occupies
  `respSize` cells.
* The TCP receive buffer is the list of cells currently readable from the
  socket; `Poco::Net::Socket::available() >= sizeof(T)` becomes a length
  check, and `MSG_PEEK` reads do not drop cells.
* The UDP socket is a FIFO list of pending datagrams (each a `List Nat`);
  `receiveFrom` pops the head datagram, copies at most the destination
  buffer's size of it (an oversized datagram is truncated, as `recvfrom`
  does), and reports the number of copied cells.
* C++ exceptions become `Except FrankaError`; each `FrankaError`
  constructor is one libfranka exception class, carrying its message.
-/

namespace Franka

/-- Exception taxonomy of libfranka as it appears in the modelled code:
network, protocol, incompatible-version and model exceptions, each with
its message string. All of these derive from std::exception in C++. -/
inductive FrankaError where
  | networkException : String → FrankaError
  | protocolException : String → FrankaError
  | incompatibleVersionException : String → FrankaError
  | modelException : String → FrankaError
deriving DecidableEq

/-- Fixed-size frame header `T::Header`: command kind and 32-bit command
identifier. -/
structure Header where
  command : Nat
  command_id : Nat
deriving DecidableEq

/-- Number of cells a serialized header occupies on the wire. -/
def headerSize : Nat := 2

/-- Serialization of a header: one cell for the command kind, one for the
command identifier. -/
def encodeHeader (h : Header) : List Nat := [h.command, h.command_id]

/-- Compile-time data of a command type `T`: its command kind constant
`T::kCommand` and the size of its fixed-size response payload
`sizeof(T::Response)`. -/
structure CommandType where
  kCommand : Nat
  respSize : Nat
deriving DecidableEq

/-- Modulus of the `uint32_t` command identifier counter. -/
def uint32Size : Nat := 2 ^ 32

/-- Mutable state of a `Network` object that the reliable channel touches:
the `command_id_` counter (a `uint32_t`, initialised to 0) and the cells
written so far to the TCP stream. -/
structure NetworkState where
  command_id : Nat
  tcp_sent : List Nat
deriving DecidableEq

/-- State of a freshly constructed `Network`: `command_id_{0}` and nothing
sent yet. -/
def initialNetwork : NetworkState := ⟨0, []⟩

/-- Embedding of `Network::tcpSendRequest<T>`: builds a frame whose header
is `T::Header(T::kCommand, command_id_++)` followed by the request payload,
writes it to the stream as one unit, and returns the identifier taken from
the header of the transmitted frame. The post-increment of the `uint32_t`
counter wraps modulo 2^32. -/
def tcpSendRequest (T : CommandType) (payload : List Nat) (st : NetworkState) :
    Nat × NetworkState :=
  let header : Header := ⟨T.kCommand, st.command_id⟩
  (header.command_id,
   { command_id := (st.command_id + 1) % uint32Size,
     tcp_sent := st.tcp_sent ++ encodeHeader header ++ payload })

/-- Embedding of `Network::tcpPeekHeaderUnsafe`: if at least a full header
is available on the socket, decode it with `MSG_PEEK` (consuming nothing)
and report success; otherwise report failure without touching the stream. -/
def tcpPeekHeaderUnsafe (buf : List Nat) : Option Header :=
  match buf with
  | c :: i :: _ => some ⟨c, i⟩
  | _ => none

/-- Embedding of `Network::tcpReceiveResponse<T>`: one non-blocking
attempt. Peek the header; if none is available or its command kind or
identifier does not match, return false leaving the buffer untouched.
Otherwise read the whole frame (header plus `sizeof(T::Response)` payload)
off the stream and invoke the handler on the payload. The result is
(return value, buffer afterwards, list of payloads the handler was invoked
on) — the third component records handler invocations, so `[p]` means the
handler ran exactly once, on `p`. The matched branch models the blocking
`tcpReceiveIntoBufferUnsafe` read of the full frame. -/
def tcpReceiveResponse (T : CommandType) (command_id : Nat) (buf : List Nat) :
    Bool × List Nat × List (List Nat) :=
  match tcpPeekHeaderUnsafe buf with
  | none => (false, buf, [])
  | some h =>
    if h.command = T.kCommand ∧ h.command_id = command_id then
      (true, buf.drop (headerSize + T.respSize), [(buf.drop headerSize).take T.respSize])
    else
      (false, buf, [])

/-- Embedding of `Network::tcpBlockingReceiveResponse<T>`: loop peeking the
header under the lock until a frame matching both the command kind and the
identifier is at the head of the stream, then read the full frame and
return its payload together with the rest of the buffer. The loop is
indexed by fuel; `none` means the call is still blocked waiting (the C++
loop would keep polling), and in that case nothing has been consumed. -/
def tcpBlockingReceiveResponse (T : CommandType) (command_id : Nat) :
    Nat → List Nat → Option (List Nat × List Nat)
  | 0, _ => none
  | fuel + 1, buf =>
    match tcpPeekHeaderUnsafe buf with
    | some h =>
      if h.command = T.kCommand ∧ h.command_id = command_id then
        some ((buf.drop headerSize).take T.respSize, buf.drop (headerSize + T.respSize))
      else
        tcpBlockingReceiveResponse T command_id fuel buf
    | none => tcpBlockingReceiveResponse T command_id fuel buf

/-- Bytes the socket reports as readable, modelling
`Poco::Net::DatagramSocket::available()`: the size of the first pending
datagram, or 0 when none is queued. The UDP socket queue is FIFO: the head
of the list is the oldest (first-arrived) unread datagram. -/
def udpAvailable (queue : List (List Nat)) : Nat :=
  match queue with
  | [] => 0
  | d :: _ => d.length

/-- Embedding of `Network::udpBlockingReceiveUnsafe<T>`: one `receiveFrom`
into a `sizeof(T)` buffer, which pops the oldest pending datagram and
copies at most `sizeof(T)` cells of it — `recvfrom` truncates an
oversized datagram, discards the excess, and reports the number of cells
copied into the buffer, so `bytes_received` is the minimum of the
datagram size and `sizeof(T)`. If `bytes_received` differs from the
buffer size a `ProtocolException` is raised (it is not a
`Poco::Exception`, so the surrounding catch does not translate it);
otherwise the buffer contents — the first `sizeof(T)` cells of the
datagram — are returned as the snapshot, with the remaining queue. An
empty queue means `receiveFrom` times out, which the catch clause turns
into a `NetworkException`. -/
def udpBlockingReceiveUnsafe (sizeT : Nat) (queue : List (List Nat)) :
    Except FrankaError (List Nat × List (List Nat)) :=
  match queue with
  | [] => .error (.networkException "libfranka: UDP receive: Timeout")
  | d :: rest =>
    let bytes_received := min d.length sizeT
    if bytes_received ≠ sizeT then
      .error (.protocolException "libfranka: incorrect object size")
    else
      .ok (d.take sizeT, rest)

/-- Embedding of `Network::udpBlockingReceive<T>`: the public wrapper that
takes the UDP lock and delegates to the unsafe receive. -/
def udpBlockingReceive (sizeT : Nat) (queue : List (List Nat)) :
    Except FrankaError (List Nat × List (List Nat)) :=
  udpBlockingReceiveUnsafe sizeT queue

/-- Embedding of `Network::udpReceive<T>`: if `available() >= sizeof(T)`,
perform one blocking receive (popping the oldest queued datagram) and
return true with the received snapshot; otherwise return false at once,
leaving the caller-supplied `data` object and the socket untouched. The
result triple is (return value, the `*data` object afterwards, remaining
queue). -/
def udpReceive (sizeT : Nat) (queue : List (List Nat)) (data : List Nat) :
    Except FrankaError (Bool × List Nat × List (List Nat)) :=
  if sizeT ≤ udpAvailable queue then
    match udpBlockingReceiveUnsafe sizeT queue with
    | .ok (d, rest) => .ok (true, d, rest)
    | .error e => .error e
  else
    .ok (false, data, queue)

/-- Status field of the connect response. `kOther n` stands for any status
value other than success and incompatible-library-version (the `default`
arm of the switch in `connect`). -/
inductive ConnectStatus where
  | kSuccess : ConnectStatus
  | kIncompatibleLibraryVersion : ConnectStatus
  | kOther : Nat → ConnectStatus
deriving DecidableEq

/-- Connect response: a status and the server-reported version. -/
structure ConnectResponse where
  status : ConnectStatus
  version : Nat
deriving DecidableEq

/-- Modelled from the spec: the connect request struct `T::Request` is
declared in the external service-types header (not under src/); per the
spec it carries the client-chosen UDP receive port and the client's
advertised protocol version. -/
structure ConnectRequest where
  version : Nat
  udp_port : Nat
deriving DecidableEq

/-- Serialization of a connect request: one cell for the advertised
version, one for the UDP receive port. -/
def encodeConnectRequest (r : ConnectRequest) : List Nat :=
  [r.version, r.udp_port]

/-- Command type of the connect command (`T` in `franka::connect`): its
command-kind constant and the response payload size of status plus
version. -/
def connectCommand : CommandType := ⟨1, 2⟩

/-- Error message built by `connect` on an incompatible library version:
streams the fixed text, the server version, and the library version
(with `std::endl` separators). -/
def incompatibleVersionMessage (serverVersion libraryVersion : Nat) : String :=
  "libfranka: incompatible library version. " ++ "\n"
    ++ "Server version: " ++ toString serverVersion ++ "\n"
    ++ "Library version: " ++ toString libraryVersion

/-- Embedding of `franka::connect<T, kLibraryVersion>`: sends a connect
request built from the network's UDP port (whose `T::Request` constructor
fills in the advertised library version), then dispatches on the response
status: incompatible-version raises `IncompatibleVersionException` with
both versions in the message; success stores the server-reported version
in `*ri_version` (the `.ok` value); any other status raises a
`ProtocolException`. The matching blocking receive that yields `response`
is modelled by `tcpBlockingReceiveResponse`; here the decoded response is
a parameter. The result is (network state after the send, the outcome). -/
def connect (kLibraryVersion udp_port : Nat) (st : NetworkState)
    (response : ConnectResponse) : NetworkState × Except FrankaError Nat :=
  let sent := tcpSendRequest connectCommand
    (encodeConnectRequest ⟨kLibraryVersion, udp_port⟩) st
  (sent.2,
   match response.status with
   | .kIncompatibleLibraryVersion =>
     .error (.incompatibleVersionException
       (incompatibleVersionMessage response.version kLibraryVersion))
   | .kSuccess => .ok response.version
   | .kOther _ =>
     .error (.protocolException
       "libfranka gripper: protocol error during gripper connection attempt"))

/-- Status field of the `LoadModelLibrary` response. -/
inductive LoadModelLibraryStatus where
  | kSuccess : LoadModelLibraryStatus
  | kError : LoadModelLibraryStatus
deriving DecidableEq

/-- Response of the `LoadModelLibrary` command: a status and the declared
size in bytes of the raw payload that follows. -/
structure LoadModelLibraryResponse where
  status : LoadModelLibraryStatus
  size : Nat
deriving DecidableEq

/-- Modelled from the spec: `Network::tcpReceiveIntoBuffer` is only
declared in src/ (its body lives in network.cpp); per the spec a short
read — the connection closing before the declared byte count arrives — is
always a transport failure. `incoming` is the list of raw cells the
connection delivers before closing; reading `read_size` of them succeeds
iff that many arrive, and otherwise raises a `NetworkException`. -/
def tcpReceiveIntoBuffer (incoming : List Nat) (read_size : Nat) :
    Except FrankaError (List Nat) :=
  if read_size ≤ incoming.length then
    .ok (incoming.take read_size)
  else
    .error (.networkException "libfranka: TCP receive bytes: connection closed")

/-- Embedding of `franka::LibraryDownloader::LibraryDownloader`: after the
request/response exchange, a non-success status raises a `ModelException`
reporting the server error. Otherwise the try block reads `response.size`
raw cells off the reliable channel into a buffer and persists them;
`persistOk` tells whether the local storage write succeeds. Any
`std::exception` escaping the try block — including the `NetworkException`
raised by a short read inside `tcpReceiveIntoBuffer`, since libfranka
exceptions derive from `std::runtime_error` — is caught and rethrown as
the `ModelException` with message "Cannot save model library.". On
success the persisted bytes are returned. -/
def LibraryDownloader (response : LoadModelLibraryResponse)
    (incoming : List Nat) (persistOk : Bool) : Except FrankaError (List Nat) :=
  if response.status ≠ .kSuccess then
    .error (.modelException "libfranka: Server reports error when loading model library.")
  else
    let tryBlock : Except FrankaError (List Nat) :=
      match tcpReceiveIntoBuffer incoming response.size with
      | .error e => .error e
      | .ok buffer =>
        if persistOk then
          .ok buffer
        else
          .error (.modelException "local storage write failure")
    match tryBlock with
    | .ok buffer => .ok buffer
    | .error _ => .error (.modelException "libfranka: Cannot save model library.")

/-- Network state after `n` calls to `tcpSendRequest` on a fresh
connection (same command type and payload each time; identifiers do not
depend on either). -/
def stateAfterSends (T : CommandType) (payload : List Nat) : Nat → NetworkState
  | 0 => initialNetwork
  | n + 1 => (tcpSendRequest T payload (stateAfterSends T payload n)).2

/-- Identifier assigned to the request at position `n` (0-indexed) in a
sequence of sends on one connection. -/
def assignedId (T : CommandType) (payload : List Nat) (n : Nat) : Nat :=
  (tcpSendRequest T payload (stateAfterSends T payload n)).1

/-! Helper lemmas shared by the claim theorems. -/

/-- Characters of a concatenation of strings. -/
theorem toList_append (s t : String) : (s ++ t).toList = s.toList ++ t.toList :=
  String.data_append s t

/-- Peeking a buffer that starts with a full serialized header decodes
exactly that header. -/
theorem tcpPeekHeaderUnsafe_encode (h : Header) (rest : List Nat) :
    tcpPeekHeaderUnsafe (encodeHeader h ++ rest) = some h := by
  cases h
  rfl

/-- Dropping the header cells of a frame leaves payload and remainder. -/
theorem drop_headerSize_encode (h : Header) (l : List Nat) :
    (encodeHeader h ++ l).drop headerSize = l := by
  cases h
  rfl

/-- Dropping a whole frame (header plus payload of the declared size)
leaves the rest of the buffer. -/
theorem drop_frame_encode (h : Header) (p rest : List Nat) (n : Nat)
    (hp : p.length = n) :
    (encodeHeader h ++ (p ++ rest)).drop (headerSize + n) = rest := by
  cases h
  rw [← List.append_assoc]
  refine List.drop_left' ?_
  simp [encodeHeader, headerSize, hp]
  omega

/-- The `command_id_` counter after `n` sends equals `n` modulo 2^32. -/
theorem command_id_stateAfterSends (T : CommandType) (p : List Nat) :
    ∀ n : Nat, (stateAfterSends T p n).command_id = n % uint32Size := by
  intro n
  induction n with
  | zero => rfl
  | succ m ih =>
    have hm : uint32Size = 4294967296 := by norm_num [uint32Size]
    simp only [stateAfterSends, tcpSendRequest, ih, hm]
    omega

/-- Closed form of the identifier assigned to the request at position `n`
(0-indexed) on one connection. -/
theorem assignedId_eq (T : CommandType) (p : List Nat) (n : Nat) :
    assignedId T p n = n % uint32Size := by
  simp only [assignedId, tcpSendRequest]
  exact command_id_stateAfterSends T p n

/-- C1: One non-blocking `tcpReceiveResponse` attempt: with no complete
header available it returns false and consumes nothing; with a header
available whose command kind or identifier does not match it returns
false and leaves the frame fully readable; with a matching header it
consumes the entire frame, invokes the handler exactly once on the
payload, and returns true. -/
theorem tcpReceiveResponse_correct (T : CommandType) (cid : Nat) :
    (∀ buf : List Nat, buf.length < headerSize →
        tcpReceiveResponse T cid buf = (false, buf, [])) ∧
    (∀ (h : Header) (rest : List Nat),
        h.command ≠ T.kCommand ∨ h.command_id ≠ cid →
        tcpReceiveResponse T cid (encodeHeader h ++ rest)
          = (false, encodeHeader h ++ rest, [])) ∧
    (∀ p rest : List Nat, p.length = T.respSize →
        tcpReceiveResponse T cid (encodeHeader ⟨T.kCommand, cid⟩ ++ (p ++ rest))
          = (true, rest, [p])) := by
  refine ⟨?_, ?_, ?_⟩
  · intro buf hlen
    match buf with
    | [] => rfl
    | [c] => rfl
    | c :: i :: t =>
      simp [headerSize] at hlen
      omega
  · intro h rest hne
    simp only [tcpReceiveResponse, tcpPeekHeaderUnsafe_encode]
    rw [if_neg]
    tauto
  · intro p rest hp
    simp only [tcpReceiveResponse, tcpPeekHeaderUnsafe_encode]
    rw [if_pos (by simp), drop_headerSize_encode, drop_frame_encode _ _ _ _ hp,
      List.take_left' hp]

/-- Witness for C1 at concrete inputs: a one-cell buffer (no full header),
a mismatching header, and a matching frame with payload `[3]`. -/
theorem tcpReceiveResponse_correct_witness :
    tcpReceiveResponse ⟨5, 1⟩ 7 [9] = (false, [9], []) ∧
    tcpReceiveResponse ⟨5, 1⟩ 7 (encodeHeader ⟨6, 7⟩ ++ [3, 8])
      = (false, encodeHeader ⟨6, 7⟩ ++ [3, 8], []) ∧
    tcpReceiveResponse ⟨5, 1⟩ 7 (encodeHeader ⟨5, 7⟩ ++ ([3] ++ [8]))
      = (true, [8], [[3]]) :=
  ⟨(tcpReceiveResponse_correct ⟨5, 1⟩ 7).1 [9] (by decide),
   (tcpReceiveResponse_correct ⟨5, 1⟩ 7).2.1 ⟨6, 7⟩ [3, 8] (Or.inl (by decide)),
   (tcpReceiveResponse_correct ⟨5, 1⟩ 7).2.2 [3] [8] (by decide)⟩

/-- C6: The blocking `tcpBlockingReceiveResponse` returns the payload of
the frame matching both the command kind and the identifier once it is at
the head of the stream (for any positive fuel), and a frame whose header
does not match is never consumed by this call: the loop keeps waiting
(result `none` for every fuel) without removing anything from the
buffer. -/
theorem tcpBlockingReceiveResponse_correct (T : CommandType) (cid : Nat) :
    (∀ (p rest : List Nat) (fuel : Nat), p.length = T.respSize → 0 < fuel →
        tcpBlockingReceiveResponse T cid fuel
            (encodeHeader ⟨T.kCommand, cid⟩ ++ (p ++ rest))
          = some (p, rest)) ∧
    (∀ (h : Header) (rest : List Nat) (fuel : Nat),
        h.command ≠ T.kCommand ∨ h.command_id ≠ cid →
        tcpBlockingReceiveResponse T cid fuel (encodeHeader h ++ rest) = none) := by
  constructor
  · intro p rest fuel hp hfuel
    match fuel with
    | 0 => omega
    | f + 1 =>
      simp only [tcpBlockingReceiveResponse, tcpPeekHeaderUnsafe_encode]
      rw [if_pos (by simp), drop_headerSize_encode, drop_frame_encode _ _ _ _ hp,
        List.take_left' hp]
  · intro h rest fuel hne
    induction fuel with
    | zero => rfl
    | succ f ih =>
      simp only [tcpBlockingReceiveResponse, tcpPeekHeaderUnsafe_encode]
      rw [if_neg]
      · exact ih
      · tauto

/-- Witness for C6 at concrete inputs: a matching frame at the head of the
stream is received; a non-matching one is never consumed. -/
theorem tcpBlockingReceiveResponse_correct_witness :
    tcpBlockingReceiveResponse ⟨5, 1⟩ 7 3 (encodeHeader ⟨5, 7⟩ ++ ([3] ++ [8]))
      = some ([3], [8]) ∧
    tcpBlockingReceiveResponse ⟨5, 1⟩ 7 3 (encodeHeader ⟨5, 9⟩ ++ [3, 8]) = none :=
  ⟨(tcpBlockingReceiveResponse_correct ⟨5, 1⟩ 7).1 [3] [8] 3 (by decide) (by decide),
   (tcpBlockingReceiveResponse_correct ⟨5, 1⟩ 7).2 ⟨5, 9⟩ [3, 8] 3 (Or.inr (by decide))⟩

/-- C10: On a freshly constructed connection the first `tcpSendRequest`
returns identifier 0, and every call returns exactly the command
identifier written into the header of the transmitted frame. -/
theorem tcpSendRequest_first_and_header (T : CommandType) (p : List Nat)
    (st : NetworkState) :
    (tcpSendRequest T p initialNetwork).1 = 0 ∧
    (tcpSendRequest T p st).2.tcp_sent
      = st.tcp_sent ++ encodeHeader ⟨T.kCommand, (tcpSendRequest T p st).1⟩ ++ p :=
  ⟨rfl, rfl⟩

/-- C2 counterexample: the `uint32_t` counter wraps, so within one
connection the request at position 2^32 is assigned the same identifier
as the very first request — identifiers are reused, and a sequence of
2^32 + 1 requests is not strictly increasing. -/
theorem assignedId_reused :
    assignedId ⟨0, 0⟩ [] uint32Size = assignedId ⟨0, 0⟩ [] 0 ∧ uint32Size ≠ 0 := by
  constructor
  · rw [assignedId_eq, assignedId_eq]
    simp
  · norm_num [uint32Size]

/-- C2 (amended): the identifier of the request at position `n` is
`n mod 2^32`; consecutive requests get identifiers increasing by exactly 1
and all identifiers are unique, as long as fewer than 2^32 requests have
been sent on the connection; beyond that the 32-bit counter wraps. -/
theorem tcpSendRequest_ids_amended (T : CommandType) (p : List Nat) :
    (∀ n : Nat, assignedId T p n = n % uint32Size) ∧
    (∀ n : Nat, n + 1 < uint32Size → assignedId T p (n + 1) = assignedId T p n + 1) ∧
    (∀ i j : Nat, i < j → j < uint32Size → assignedId T p i < assignedId T p j) := by
  have hm : uint32Size = 4294967296 := by norm_num [uint32Size]
  refine ⟨fun n => assignedId_eq T p n, fun n hn => ?_, fun i j hij hj => ?_⟩
  · rw [assignedId_eq, assignedId_eq]
    rw [hm] at hn ⊢
    omega
  · rw [assignedId_eq, assignedId_eq]
    rw [hm] at hj ⊢
    omega

/-- Witness for the amended C2 at concrete positions 0 and 1. -/
theorem tcpSendRequest_ids_amended_witness :
    assignedId ⟨0, 0⟩ [] 1 = assignedId ⟨0, 0⟩ [] 0 + 1 ∧
    assignedId ⟨0, 0⟩ [] 0 < assignedId ⟨0, 0⟩ [] 1 :=
  ⟨(tcpSendRequest_ids_amended ⟨0, 0⟩ []).2.1 0 (by norm_num [uint32Size]),
   (tcpSendRequest_ids_amended ⟨0, 0⟩ []).2.2 0 1 (by norm_num)
     (by norm_num [uint32Size])⟩

/-- C4 counterexample: with two snapshots queued at the socket (`[10]`
arrived first, `[20]` most recently), `udpReceive` returns the oldest
snapshot `[10]`, not the most recently arrived one, and the newer
snapshot stays queued. -/
theorem udpReceive_returns_oldest_not_latest :
    udpReceive 1 [[10], [20]] [0] = .ok (true, [10], [[20]]) ∧
    ([10] : List Nat) ≠ [20] := by
  exact ⟨rfl, by decide⟩

/-- C4 (amended): when snapshots are queued at the socket, a receive
(`udpReceive` or `udpBlockingReceive`) returns the oldest queued snapshot
in FIFO order and leaves the rest queued; obtaining the latest snapshot is
the caller's job, by draining the queue with repeated calls. -/
theorem udpReceive_fifo (sizeT : Nat) (d : List Nat) (rest : List (List Nat))
    (data : List Nat) (h : d.length = sizeT) :
    udpReceive sizeT (d :: rest) data = .ok (true, d, rest) ∧
    udpBlockingReceive sizeT (d :: rest) = .ok (d, rest) := by
  subst h
  constructor
  · simp [udpReceive, udpAvailable, udpBlockingReceiveUnsafe, List.take_length]
  · simp [udpBlockingReceive, udpBlockingReceiveUnsafe, List.take_length]

/-- Witness for the amended C4 with two one-cell snapshots queued. -/
theorem udpReceive_fifo_witness :
    udpReceive 1 [[7], [9]] [] = .ok (true, [7], [[9]]) ∧
    udpBlockingReceive 1 [[7], [9]] = .ok ([7], [[9]]) :=
  ⟨(udpReceive_fifo 1 [7] [[9]] [] (by decide)).1,
   (udpReceive_fifo 1 [7] [[9]] [] (by decide)).2⟩

/-- C9: with no datagram queued at the socket, the non-blocking
`udpReceive` returns false, raises no error, and leaves the
caller-supplied output object untouched. -/
theorem udpReceive_nothing_queued (sizeT : Nat) (data : List Nat)
    (h : 0 < sizeT) :
    udpReceive sizeT [] data = .ok (false, data, []) := by
  have h0 : udpAvailable ([] : List (List Nat)) = 0 := rfl
  simp only [udpReceive, h0]
  rw [if_neg (by omega)]

/-- Witness for C9: an empty socket queue with an 8-byte snapshot type. -/
theorem udpReceive_nothing_queued_witness :
    udpReceive 8 [] [1, 2] = .ok (false, [1, 2], []) :=
  udpReceive_nothing_queued 8 [1, 2] (by decide)

/-- C7 evaluated at the failing input: an oversized datagram (`[5, 6]`
where the expected snapshot size is one cell) is silently truncated —
`recvfrom` copies `sizeof(T)` cells and reports `sizeof(T)`, so the
`bytes_received != buffer.size()` check passes and the blocking receive
returns the truncated snapshot `[5]` instead of raising the protocol
failure the claim requires. An undersized datagram (`[5]` where two
cells are expected) does raise the `ProtocolException`, which is the
only size-mismatch path that exists in the program. -/
theorem udpBlockingReceive_truncates_oversized :
    udpBlockingReceive 1 [[5, 6]] = .ok ([5], []) ∧
    udpBlockingReceive 2 [[5]]
      = .error (.protocolException "libfranka: incorrect object size") :=
  ⟨rfl, rfl⟩

/-- C3: the connect outcome is a three-way case split on the response
status: success stores the server-reported version; incompatible-version
raises an `IncompatibleVersionException` whose message contains both the
server and the library version (for server 4 and library 3 it contains
the characters 3 and 4); any other status raises a `ProtocolException`. -/
theorem connect_version_negotiation (k v o udp_port : Nat) (st : NetworkState) :
    (connect k udp_port st ⟨.kSuccess, v⟩).2 = .ok v ∧
    (connect k udp_port st ⟨.kIncompatibleLibraryVersion, v⟩).2
      = .error (.incompatibleVersionException (incompatibleVersionMessage v k)) ∧
    (toString v).toList <:+: (incompatibleVersionMessage v k).toList ∧
    (toString k).toList <:+: (incompatibleVersionMessage v k).toList ∧
    ('3' ∈ (incompatibleVersionMessage 4 3).toList ∧
      '4' ∈ (incompatibleVersionMessage 4 3).toList) ∧
    (connect k udp_port st ⟨.kOther o, v⟩).2
      = .error (.protocolException
          "libfranka gripper: protocol error during gripper connection attempt") := by
  refine ⟨rfl, rfl, ?_, ?_, by decide, rfl⟩
  · refine ⟨("libfranka: incompatible library version. " ++ "\n"
        ++ "Server version: ").toList,
      ("\n" ++ "Library version: " ++ toString k).toList, ?_⟩
    simp [incompatibleVersionMessage, toList_append, List.append_assoc]
  · refine ⟨("libfranka: incompatible library version. " ++ "\n"
        ++ "Server version: " ++ toString v ++ "\n"
        ++ "Library version: ").toList, [], ?_⟩
    simp [incompatibleVersionMessage, toList_append, List.append_assoc]

/-- C8: the connect request written to the reliable channel carries the
client's local UDP receive port and the client's advertised protocol
version (spec-modelled request layout, version first then port), behind
the frame header. -/
theorem connect_request_carries_port_and_version (k udp_port : Nat)
    (st : NetworkState) (resp : ConnectResponse) :
    (connect k udp_port st resp).1.tcp_sent
      = st.tcp_sent ++ encodeHeader ⟨connectCommand.kCommand, st.command_id⟩
          ++ [k, udp_port] :=
  rfl

/-- C5: a network failure in the middle of the bulk download (server
declares 1024 bytes, the connection closes after 500) is raised as a
`NetworkException` by the transport read, but the downloader's try block
catches it and rethrows the "Cannot save model library." `ModelException`
instead — the surfaced error does not let the caller distinguish local
storage failure from network failure. -/
theorem LibraryDownloader_masks_network_failure :
    LibraryDownloader ⟨.kSuccess, 1024⟩ (List.replicate 500 0) true
      = .error (.modelException "libfranka: Cannot save model library.") ∧
    tcpReceiveIntoBuffer (List.replicate 500 0) 1024
      = .error (.networkException "libfranka: TCP receive bytes: connection closed") := by
  have hlen : (List.replicate 500 (0 : Nat)).length = 500 := List.length_replicate 500 0
  have hrecv : tcpReceiveIntoBuffer (List.replicate 500 0) 1024
      = .error (.networkException "libfranka: TCP receive bytes: connection closed") := by
    unfold tcpReceiveIntoBuffer
    rw [hlen, if_neg (by norm_num)]
  refine ⟨?_, hrecv⟩
  unfold LibraryDownloader
  rw [if_neg (by simp)]
  simp only [hrecv]

end Franka
